import Mathlib

/-!
Verification of the client-side interaction module of the blog theme
(`src/themes/coffeepsite/assets/js/main.js`).

The module is a single `DOMContentLoaded` handler containing three
controllers:

* a menu controller (`.menu-toggle` / `.header-menu`): trigger-click toggle,
  document-level outside-click dismissal, and resize auto-close above 768px;
* a language-dropdown controller (`.lang-toggle` / `.lang-dropdown`), attached
  only when `window.innerWidth <= 768` at initialization, whose click handler
  calls `stopPropagation` and toggles the dropdown class;
* a theme controller: reads `localStorage.getItem('theme') || 'light'`, writes
  it onto the root `data-theme` attribute, and on `.theme-toggle` clicks flips
  the attribute between "light" and "dark" and persists the new value.

DOM attributes are modelled as `Option String` (absent / present with a string
value), class presence as `Bool`, and `localStorage` as an `Option String`
value together with availability flags for reads and writes (an unavailable
operation throws; the source has no try/catch, so a throw propagates out of
the handler that performed it).
-/

/-- JavaScript coercion of a boolean to the string handed to `setAttribute`
(`this.setAttribute('aria-expanded', !isExpanded)`). -/
def boolToAttr (b : Bool) : String := if b then "true" else "false"

/-- The state the menu controller reads and writes: the `aria-expanded`
attribute on `.menu-toggle`, the presence of the `is-open` class on
`.header-menu`, and the inline `overflow` style on `document.body`. -/
structure MenuState where
  ariaExpanded : Option String
  menuOpen : Bool
  bodyOverflow : String
  deriving DecidableEq, Repr

/-- The `.menu-toggle` click handler:
`const isExpanded = this.getAttribute('aria-expanded') === 'true';
this.setAttribute('aria-expanded', !isExpanded);
headerMenu.classList.toggle('is-open');
document.body.style.overflow = !isExpanded ? 'hidden' : '';` -/
def menuToggleClick (s : MenuState) : MenuState :=
  let isExpanded := decide (s.ariaExpanded = some "true")
  { ariaExpanded := some (boolToAttr (!isExpanded))
    menuOpen := !s.menuOpen
    bodyOverflow := if !isExpanded then "hidden" else "" }

/-- The document-level click handler: if the click target has no
`.header-wrapper` ancestor (`!e.target.closest('.header-wrapper')`), it sets
`aria-expanded` to "false", removes `is-open`, and clears the body overflow.
`inHeaderWrapper` records whether `e.target.closest('.header-wrapper')`
found an ancestor. -/
def documentClick (inHeaderWrapper : Bool) (s : MenuState) : MenuState :=
  if inHeaderWrapper then s
  else { ariaExpanded := some "false", menuOpen := false, bodyOverflow := "" }

/-- The window `resize` handler: if `window.innerWidth > 768`, force-close the
menu exactly as the outside-click path does; otherwise do nothing. -/
def windowResize (innerWidth : Nat) (s : MenuState) : MenuState :=
  if innerWidth > 768 then
    { ariaExpanded := some "false", menuOpen := false, bodyOverflow := "" }
  else s

/-- Events the menu controller reacts to.  A click on the trigger runs the
trigger handler and then bubbles to the document-level listener, whose guard
depends on whether the trigger sits inside `.header-wrapper`; a click
elsewhere reaches only the document-level listener; a resize samples
`window.innerWidth`. -/
inductive MenuEvent where
  | triggerClick : Bool → MenuEvent
  | docClick : Bool → MenuEvent
  | resize : Nat → MenuEvent
  deriving DecidableEq, Repr

/-- One event dispatched against the menu controller's listeners. -/
def menuStep (e : MenuEvent) (s : MenuState) : MenuState :=
  match e with
  | .triggerClick inHeader => documentClick inHeader (menuToggleClick s)
  | .docClick inHeader => documentClick inHeader s
  | .resize w => windowResize w s

/-- A sequence of events dispatched in order. -/
def menuRun (es : List MenuEvent) (s : MenuState) : MenuState :=
  match es with
  | [] => s
  | e :: rest => menuRun rest (menuStep e s)

/-- The redundancy invariant of the menu-open flag: the boolean reading of
`aria-expanded` agrees with the presence of the `is-open` class. -/
def menuInvariant (s : MenuState) : Prop :=
  (s.ariaExpanded = some "true") ↔ s.menuOpen = true

instance (s : MenuState) : Decidable (menuInvariant s) := by
  unfold menuInvariant; infer_instance

/-- The initial closed state: the markup ships the trigger with
`aria-expanded="false"`, no `is-open` class, and no inline body overflow. -/
def initialMenuState : MenuState :=
  { ariaExpanded := some "false", menuOpen := false, bodyOverflow := "" }

theorem menuToggleClick_invariant (s : MenuState) (h : menuInvariant s) :
    menuInvariant (menuToggleClick s) := by
  unfold menuInvariant at h ⊢
  by_cases hx : s.ariaExpanded = some "true"
  · have hm : s.menuOpen = true := h.mp hx
    simp [menuToggleClick, hx, hm, boolToAttr]
  · have hm : s.menuOpen = false := by
      cases hmo : s.menuOpen
      · rfl
      · exact absurd (h.mpr hmo) hx
    simp [menuToggleClick, hx, hm, boolToAttr]

theorem documentClick_invariant (b : Bool) (s : MenuState) (h : menuInvariant s) :
    menuInvariant (documentClick b s) := by
  unfold menuInvariant at h ⊢
  cases b
  · simp [documentClick]
  · simpa [documentClick] using h

theorem windowResize_invariant (w : Nat) (s : MenuState) (h : menuInvariant s) :
    menuInvariant (windowResize w s) := by
  unfold menuInvariant at h ⊢
  unfold windowResize
  split
  · simp
  · exact h

theorem menuStep_invariant (e : MenuEvent) (s : MenuState) (h : menuInvariant s) :
    menuInvariant (menuStep e s) := by
  cases e with
  | triggerClick b =>
      exact documentClick_invariant b _ (menuToggleClick_invariant s h)
  | docClick b => exact documentClick_invariant b s h
  | resize w => exact windowResize_invariant w s h

theorem menuRun_invariant (es : List MenuEvent) (s : MenuState) (h : menuInvariant s) :
    menuInvariant (menuRun es s) := by
  induction es generalizing s with
  | nil => exact h
  | cons e rest ih => exact ih (menuStep e s) (menuStep_invariant e s h)

/-- Browser-profile key-value storage for the `theme` key.  `readOk` and
`writeOk` record whether the store is available for the respective operation;
an unavailable operation throws. -/
structure Storage where
  val : Option String
  readOk : Bool
  writeOk : Bool
  deriving DecidableEq, Repr

/-- `localStorage.getItem('theme')`: returns the stored value (`none` when no
value is present) or throws when storage is unavailable. -/
def getItem (st : Storage) : Except Unit (Option String) :=
  if st.readOk then .ok st.val else .error ()

/-- `localStorage.setItem('theme', v)`: stores `v` or throws when storage is
unavailable for writes. -/
def setItem (st : Storage) (v : String) : Except Unit Storage :=
  if st.writeOk then .ok { st with val := some v } else .error ()

/-- JavaScript `o || d` on a nullable string: `null` and the empty string are
falsy, every other string is returned as is. -/
def jsOr (o : Option String) (d : String) : String :=
  match o with
  | none => d
  | some s => if s = "" then d else s

/-- The state the theme controller reads and writes: the `data-theme`
attribute on the document root and the persisted storage. -/
structure ThemeState where
  dataTheme : Option String
  storage : Storage
  deriving DecidableEq, Repr

/-- The theme initialization lines of the `DOMContentLoaded` handler:
`const currentTheme = localStorage.getItem('theme') || 'light';
htmlElement.setAttribute('data-theme', currentTheme);`
The returned `Bool` records whether the read threw; on a throw the attribute
write is never reached, so `data-theme` keeps its prior value `dataTheme0`. -/
def themeInit (dataTheme0 : Option String) (st : Storage) : ThemeState × Bool :=
  match getItem st with
  | .ok v => ({ dataTheme := some (jsOr v "light"), storage := st }, false)
  | .error _ => ({ dataTheme := dataTheme0, storage := st }, true)

/-- The `.theme-toggle` click handler:
`const theme = htmlElement.getAttribute('data-theme');
const newTheme = theme === 'dark' ? 'light' : 'dark';
htmlElement.setAttribute('data-theme', newTheme);
localStorage.setItem('theme', newTheme);`
The returned `Bool` records whether `setItem` threw; the attribute is set
before the write, so it flips even when the write throws. -/
def themeToggleClick (s : ThemeState) : ThemeState × Bool :=
  let theme := s.dataTheme
  let newTheme := if theme = some "dark" then "light" else "dark"
  let s1 : ThemeState := { s with dataTheme := some newTheme }
  match setItem s1.storage newTheme with
  | .ok st => ({ s1 with storage := st }, false)
  | .error _ => (s1, true)

/-- Which of the queried elements are present in the page's markup. -/
structure PageElems where
  menuTogglePresent : Bool
  headerMenuPresent : Bool
  langTogglePresent : Bool
  langDropdownPresent : Bool
  themeTogglePresent : Bool
  deriving DecidableEq, Repr

/-- What the `DOMContentLoaded` handler has done by the time it returns:
which listeners it attached, the root `data-theme` attribute, and whether an
exception escaped the handler. -/
structure InitResult where
  menuListenersAttached : Bool
  langListenerAttached : Bool
  themeListenerAttached : Bool
  dataTheme : Option String
  threw : Bool
  deriving DecidableEq, Repr

/-- The whole `DOMContentLoaded` handler, in source order: the menu listeners
are attached iff both `.menu-toggle` and `.header-menu` exist; the language
listener iff `.lang-toggle` and `.lang-dropdown` exist and
`window.innerWidth <= 768`; then the theme block runs — a throwing
`localStorage.getItem` aborts the handler there, before the `data-theme`
write and before the theme listener is attached. -/
def domContentLoaded (elems : PageElems) (innerWidth : Nat)
    (dataTheme0 : Option String) (st : Storage) : InitResult :=
  let menuL := elems.menuTogglePresent && elems.headerMenuPresent
  let langL := elems.langTogglePresent && elems.langDropdownPresent
                 && decide (innerWidth ≤ 768)
  match getItem st with
  | .ok v =>
      { menuListenersAttached := menuL
        langListenerAttached := langL
        themeListenerAttached := elems.themeTogglePresent
        dataTheme := some (jsOr v "light")
        threw := false }
  | .error _ =>
      { menuListenersAttached := menuL
        langListenerAttached := langL
        themeListenerAttached := false
        dataTheme := dataTheme0
        threw := true }

/-- Combined UI state for claims that relate the dropdown and the menu:
the menu controller's state plus the presence of `is-open` on
`.lang-dropdown`. -/
structure UiState where
  menu : MenuState
  langOpen : Bool
  deriving DecidableEq, Repr

/-- The `.lang-toggle` click handler:
`e.stopPropagation(); langDropdown.classList.toggle('is-open');`
Returns the new dropdown flag and whether propagation was stopped. -/
def langToggleHandler (langOpen : Bool) : Bool × Bool := (!langOpen, true)

/-- The bubbling phase of a click after the target's own handlers ran: the
document-level outside-click listener runs only if it is attached and no
handler on the path called `stopPropagation`. -/
def dispatchDocPhase (stopped : Bool) (docListenerAttached : Bool)
    (inHeaderWrapper : Bool) (s : UiState) : UiState :=
  if stopped then s
  else if docListenerAttached then { s with menu := documentClick inHeaderWrapper s.menu }
  else s

/-- A full click on the language toggle: its own handler runs (stopping
propagation and flipping the dropdown class), then the document phase. -/
def clickLangToggle (docListenerAttached : Bool) (inHeaderWrapper : Bool)
    (s : UiState) : UiState :=
  let hr := langToggleHandler s.langOpen
  dispatchDocPhase hr.2 docListenerAttached inHeaderWrapper { s with langOpen := hr.1 }

/-- Elements all present, as on the theme's regular pages. -/
def allElems : PageElems :=
  { menuTogglePresent := true, headerMenuPresent := true,
    langTogglePresent := true, langDropdownPresent := true,
    themeTogglePresent := true }

/-- Claim C3: for every sequence of menu events starting from a state in
which the boolean reading of `aria-expanded` agrees with the presence of the
`is-open` class (in particular the initial closed state), the two
representations agree again after every event, so they never diverge. -/
theorem c3_menu_sync (s0 : MenuState) (h0 : menuInvariant s0)
    (es : List MenuEvent) : menuInvariant (menuRun es s0) :=
  menuRun_invariant es s0 h0

theorem c3_menu_sync_witness :
    menuInvariant (menuRun
      [MenuEvent.triggerClick true, MenuEvent.docClick false,
       MenuEvent.triggerClick true, MenuEvent.resize 900] initialMenuState) :=
  c3_menu_sync initialMenuState (by decide) _

/-- Claim C4: a trigger click on a closed menu opens it and sets the body
overflow to "hidden"; a trigger click on an open menu, an outside click, and
a resize above 768px all close the menu and restore the overflow to "". -/
theorem c4_overflow (s : MenuState) (hinv : menuInvariant s) :
    (s.menuOpen = false →
      (menuToggleClick s).menuOpen = true
      ∧ (menuToggleClick s).bodyOverflow = "hidden")
    ∧ (s.menuOpen = true →
      (menuToggleClick s).menuOpen = false
      ∧ (menuToggleClick s).bodyOverflow = "")
    ∧ ((documentClick false s).menuOpen = false
      ∧ (documentClick false s).bodyOverflow = "")
    ∧ (∀ w : Nat, 768 < w →
      (windowResize w s).menuOpen = false
      ∧ (windowResize w s).bodyOverflow = "") := by
  refine ⟨?_, ?_, ?_, ?_⟩
  · intro hm
    have hx : ¬ s.ariaExpanded = some "true" := by
      intro hx
      rw [menuInvariant, hm] at hinv
      exact absurd (hinv.mp hx) (by simp)
    simp [menuToggleClick, hx, hm]
  · intro hm
    have hx : s.ariaExpanded = some "true" := hinv.mpr hm
    simp [menuToggleClick, hx, hm]
  · simp [documentClick]
  · intro w hw
    simp [windowResize, hw]

theorem c4_overflow_witness :
    ((menuToggleClick initialMenuState).menuOpen = true
      ∧ (menuToggleClick initialMenuState).bodyOverflow = "hidden")
    ∧ ((menuToggleClick
        { ariaExpanded := some "true", menuOpen := true, bodyOverflow := "hidden" }).menuOpen = false
      ∧ (menuToggleClick
        { ariaExpanded := some "true", menuOpen := true, bodyOverflow := "hidden" }).bodyOverflow = "") :=
  ⟨(c4_overflow initialMenuState (by decide)).1 rfl,
   (c4_overflow
      { ariaExpanded := some "true", menuOpen := true, bodyOverflow := "hidden" }
      (by decide)).2.1 rfl⟩

/-- Claim C7: a resize with sampled width above 768px leaves the menu closed
(`aria-expanded` "false", no `is-open` class, overflow "") whatever the prior
state, and is idempotent; a resize with width at most 768px leaves the state
entirely unchanged. -/
theorem c7_resize (s : MenuState) (w : Nat) :
    (768 < w → windowResize w s =
      { ariaExpanded := some "false", menuOpen := false, bodyOverflow := "" })
    ∧ (w ≤ 768 → windowResize w s = s)
    ∧ windowResize w (windowResize w s) = windowResize w s := by
  refine ⟨?_, ?_, ?_⟩
  · intro h; simp [windowResize, h]
  · intro h; simp [windowResize, Nat.not_lt.mpr h]
  · by_cases h : 768 < w <;> simp [windowResize, h]

theorem c7_resize_witness :
    windowResize 900 { ariaExpanded := some "true", menuOpen := true, bodyOverflow := "hidden" }
      = { ariaExpanded := some "false", menuOpen := false, bodyOverflow := "" }
    ∧ windowResize 500 { ariaExpanded := some "true", menuOpen := true, bodyOverflow := "hidden" }
      = { ariaExpanded := some "true", menuOpen := true, bodyOverflow := "hidden" } :=
  ⟨(c7_resize { ariaExpanded := some "true", menuOpen := true, bodyOverflow := "hidden" } 900).1
      (by decide),
   (c7_resize { ariaExpanded := some "true", menuOpen := true, bodyOverflow := "hidden" } 500).2.1
      (by decide)⟩

/-- Claim C9: if the menu trigger or the menu container is absent at
initialization, none of the three menu listeners is attached and (storage
being readable) no exception escapes initialization. -/
theorem c9_menu_guard (elems : PageElems) (w : Nat) (d0 : Option String)
    (st : Storage)
    (h : elems.menuTogglePresent = false ∨ elems.headerMenuPresent = false)
    (hr : st.readOk = true) :
    (domContentLoaded elems w d0 st).menuListenersAttached = false
    ∧ (domContentLoaded elems w d0 st).threw = false := by
  rcases h with h | h <;> simp [domContentLoaded, getItem, hr, h]

theorem c9_menu_guard_witness :
    (domContentLoaded { allElems with menuTogglePresent := false } 500 none
        { val := none, readOk := true, writeOk := true }).menuListenersAttached = false
    ∧ (domContentLoaded { allElems with menuTogglePresent := false } 500 none
        { val := none, readOk := true, writeOk := true }).threw = false :=
  c9_menu_guard { allElems with menuTogglePresent := false } 500 none
    { val := none, readOk := true, writeOk := true } (Or.inl rfl) rfl

/-- Claim C10: the `data-theme` write happens outside the `if (themeToggle)`
guard, so with the theme toggle absent (and storage readable) initialization
still applies the persisted or default theme to the root; only the theme
click listener is skipped, the other listeners being attached as usual. -/
theorem c10_theme_applied_without_button (elems : PageElems) (w : Nat)
    (d0 : Option String) (st : Storage)
    (ht : elems.themeTogglePresent = false) (hr : st.readOk = true) :
    (domContentLoaded elems w d0 st).dataTheme = some (jsOr st.val "light")
    ∧ (domContentLoaded elems w d0 st).themeListenerAttached = false
    ∧ (domContentLoaded elems w d0 st).threw = false
    ∧ (domContentLoaded elems w d0 st).menuListenersAttached
        = (elems.menuTogglePresent && elems.headerMenuPresent)
    ∧ (domContentLoaded elems w d0 st).langListenerAttached
        = (elems.langTogglePresent && elems.langDropdownPresent && decide (w ≤ 768)) := by
  simp [domContentLoaded, getItem, hr, ht]

theorem c10_theme_applied_without_button_witness :
    (domContentLoaded { allElems with themeTogglePresent := false } 500 none
        { val := some "dark", readOk := true, writeOk := true }).dataTheme = some "dark"
    ∧ (domContentLoaded { allElems with themeTogglePresent := false } 500 none
        { val := some "dark", readOk := true, writeOk := true }).themeListenerAttached = false :=
  ⟨by
    have h := (c10_theme_applied_without_button
      { allElems with themeTogglePresent := false } 500 none
      { val := some "dark", readOk := true, writeOk := true } rfl rfl).1
    simpa [jsOr] using h,
   (c10_theme_applied_without_button
      { allElems with themeTogglePresent := false } 500 none
      { val := some "dark", readOk := true, writeOk := true } rfl rfl).2.1⟩

/-- Claim C8: with no persisted value in storage (and storage readable),
initialization sets `data-theme` to "light" on the document root before any
listener can fire. -/
theorem c8_default_light (elems : PageElems) (w : Nat) (d0 : Option String)
    (wOk : Bool) :
    (domContentLoaded elems w d0
       { val := none, readOk := true, writeOk := wOk }).dataTheme = some "light" := by
  simp [domContentLoaded, getItem, jsOr]

/-- Claim C6: when the viewport width at initialization is at most 768px and
both language elements exist, the language listener is attached, and a click
on the language toggle flips the dropdown's `is-open` class while leaving the
menu state (aria-expanded, is-open class, body overflow) untouched, because
`stopPropagation` keeps the click from the document-level listener. -/
theorem c6_lang_click_frame (elems : PageElems) (w : Nat) (d0 : Option String)
    (st : Storage) (hw : w ≤ 768) (h1 : elems.langTogglePresent = true)
    (h2 : elems.langDropdownPresent = true)
    (docListenerAttached inHeaderWrapper : Bool) (s : UiState) :
    (domContentLoaded elems w d0 st).langListenerAttached = true
    ∧ (clickLangToggle docListenerAttached inHeaderWrapper s).langOpen = !s.langOpen
    ∧ (clickLangToggle docListenerAttached inHeaderWrapper s).menu = s.menu := by
  refine ⟨?_, ?_, ?_⟩
  · unfold domContentLoaded
    cases hg : getItem st <;> simp [h1, h2, hw]
  · simp [clickLangToggle, langToggleHandler, dispatchDocPhase]
  · simp [clickLangToggle, langToggleHandler, dispatchDocPhase]

theorem c6_lang_click_frame_witness :
    (domContentLoaded allElems 500 none
        { val := none, readOk := true, writeOk := true }).langListenerAttached = true
    ∧ (clickLangToggle true false
        { menu := { ariaExpanded := some "true", menuOpen := true, bodyOverflow := "hidden" },
          langOpen := false }).langOpen = true
    ∧ (clickLangToggle true false
        { menu := { ariaExpanded := some "true", menuOpen := true, bodyOverflow := "hidden" },
          langOpen := false }).menu
        = { ariaExpanded := some "true", menuOpen := true, bodyOverflow := "hidden" } :=
  (c6_lang_click_frame allElems 500 none
    { val := none, readOk := true, writeOk := true } (by decide) rfl rfl true false
    { menu := { ariaExpanded := some "true", menuOpen := true, bodyOverflow := "hidden" },
      langOpen := false })

/-- Claim C1, counterexample: initializing with no stored value (storage
available) sets the root attribute to "light" but writes nothing back, so the
attribute and the persisted value differ immediately after initialization. -/
theorem c1_counterexample :
    (themeInit none { val := none, readOk := true, writeOk := true }).1.dataTheme = some "light"
    ∧ (themeInit none { val := none, readOk := true, writeOk := true }).1.storage.val = none
    ∧ ¬ ((themeInit none { val := none, readOk := true, writeOk := true }).1.dataTheme
          = (themeInit none { val := none, readOk := true, writeOk := true }).1.storage.val) := by
  refine ⟨rfl, rfl, ?_⟩
  decide

/-- Claim C1, amended: after an initialization that found a stored (non-empty)
value the root attribute equals the persisted value, and after every theme
toggle click with storage writable the two are equal again; only an
initialization that found no stored value leaves them different (attribute
"light", storage empty) until the first toggle. -/
theorem c1_amended_sync (d0 : Option String) (v : String) (hv : ¬ v = "")
    (wOk : Bool) (s : ThemeState) (hw : s.storage.writeOk = true) :
    ((themeInit d0 { val := some v, readOk := true, writeOk := wOk }).1.dataTheme
        = (themeInit d0 { val := some v, readOk := true, writeOk := wOk }).1.storage.val)
    ∧ ((themeToggleClick s).1.dataTheme = (themeToggleClick s).1.storage.val) := by
  constructor
  · simp [themeInit, getItem, jsOr, hv]
  · simp [themeToggleClick, setItem, hw]

theorem c1_amended_sync_witness :
    ((themeInit none { val := some "dark", readOk := true, writeOk := true }).1.dataTheme
        = (themeInit none { val := some "dark", readOk := true, writeOk := true }).1.storage.val)
    ∧ ((themeToggleClick
          { dataTheme := some "light", storage := { val := none, readOk := true, writeOk := true } }).1.dataTheme
        = (themeToggleClick
          { dataTheme := some "light", storage := { val := none, readOk := true, writeOk := true } }).1.storage.val) :=
  c1_amended_sync none "dark" (by decide) true
    { dataTheme := some "light", storage := { val := none, readOk := true, writeOk := true } } rfl

/-- The state reached by initializing with empty, fully available storage:
attribute "light", nothing persisted. -/
def freshInitState : ThemeState :=
  (themeInit none { val := none, readOk := true, writeOk := true }).1

/-- Claim C5, counterexample: from the state reached by a fresh
initialization with empty storage — a reachable post-initialization state —
toggling twice restores the root attribute but leaves the persisted value at
"light" where it was previously absent, so the persisted value is not
returned to its prior value. -/
theorem c5_counterexample :
    freshInitState.storage.val = none
    ∧ freshInitState.dataTheme = some "light"
    ∧ (themeToggleClick (themeToggleClick freshInitState).1).1.dataTheme = some "light"
    ∧ (themeToggleClick (themeToggleClick freshInitState).1).1.storage.val = some "light"
    ∧ ¬ ((themeToggleClick (themeToggleClick freshInitState).1).1.storage.val
          = freshInitState.storage.val) := by
  refine ⟨rfl, rfl, rfl, rfl, ?_⟩
  decide

/-- Claim C5, amended: from any state whose root attribute is "light" or
"dark" and whose storage is writable, applying the toggle twice returns the
root attribute to its prior value and leaves the persisted value equal to
that attribute — so the persisted value is also restored exactly when it
already equalled the attribute before the first application (which holds in
every reachable state except immediately after an initialization that found
no stored value). -/
theorem c5_amended_involution (s : ThemeState)
    (h : s.dataTheme = some "light" ∨ s.dataTheme = some "dark")
    (hw : s.storage.writeOk = true) :
    ((themeToggleClick (themeToggleClick s).1).1.dataTheme = s.dataTheme)
    ∧ ((themeToggleClick (themeToggleClick s).1).1.storage.val = s.dataTheme) := by
  rcases h with h | h <;> simp [themeToggleClick, setItem, hw, h]

theorem c5_amended_involution_witness :
    ((themeToggleClick (themeToggleClick
        { dataTheme := some "dark",
          storage := { val := some "dark", readOk := true, writeOk := true } }).1).1.dataTheme
      = some "dark")
    ∧ ((themeToggleClick (themeToggleClick
        { dataTheme := some "dark",
          storage := { val := some "dark", readOk := true, writeOk := true } }).1).1.storage.val
      = some "dark") :=
  c5_amended_involution
    { dataTheme := some "dark",
      storage := { val := some "dark", readOk := true, writeOk := true } }
    (Or.inr rfl) rfl

/-- Claim C2, counterexample: with storage unavailable, the read at
initialization throws with no try/catch around it, so the exception escapes
the handler, `data-theme` is never set (it keeps its prior absent value, not
"light"), and the theme-toggle listener is never attached. -/
theorem c2_counterexample :
    (domContentLoaded allElems 500 none
        { val := none, readOk := false, writeOk := false }).threw = true
    ∧ ¬ ((domContentLoaded allElems 500 none
        { val := none, readOk := false, writeOk := false }).dataTheme = some "light")
    ∧ (domContentLoaded allElems 500 none
        { val := none, readOk := false, writeOk := false }).themeListenerAttached = false := by
  refine ⟨rfl, ?_, rfl⟩
  decide

/-- Claim C2, amended: the source has no exception handling, so storage
failure is not absorbed.  If the read is unavailable, the exception escapes
initialization: `data-theme` keeps its prior value, the theme listener is
never attached (so the toggle does not function), while the menu and
language listeners — attached before the theme block — are attached as
usual.  If only the write is unavailable, a toggle click still flips the
root attribute before the failing write, nothing is persisted, and the
exception escapes the click handler. -/
theorem c2_amended_no_catch (elems : PageElems) (w : Nat)
    (d0 : Option String) (st : Storage) (hr : st.readOk = false)
    (s : ThemeState) (hw : s.storage.writeOk = false) :
    ((domContentLoaded elems w d0 st).threw = true
      ∧ (domContentLoaded elems w d0 st).dataTheme = d0
      ∧ (domContentLoaded elems w d0 st).themeListenerAttached = false
      ∧ (domContentLoaded elems w d0 st).menuListenersAttached
          = (elems.menuTogglePresent && elems.headerMenuPresent)
      ∧ (domContentLoaded elems w d0 st).langListenerAttached
          = (elems.langTogglePresent && elems.langDropdownPresent && decide (w ≤ 768)))
    ∧ ((themeToggleClick s).2 = true
      ∧ (themeToggleClick s).1.storage.val = s.storage.val
      ∧ (themeToggleClick s).1.dataTheme
          = some (if s.dataTheme = some "dark" then "light" else "dark")) := by
  constructor
  · simp [domContentLoaded, getItem, hr]
  · simp [themeToggleClick, setItem, hw]

theorem c2_amended_no_catch_witness :
    ((domContentLoaded allElems 500 none
        { val := none, readOk := false, writeOk := false }).threw = true
      ∧ (domContentLoaded allElems 500 none
        { val := none, readOk := false, writeOk := false }).dataTheme = none)
    ∧ ((themeToggleClick
        { dataTheme := some "light",
          storage := { val := none, readOk := false, writeOk := false } }).2 = true
      ∧ (themeToggleClick
        { dataTheme := some "light",
          storage := { val := none, readOk := false, writeOk := false } }).1.dataTheme
          = some "dark") := by
  have h := c2_amended_no_catch allElems 500 none
    { val := none, readOk := false, writeOk := false } rfl
    { dataTheme := some "light",
      storage := { val := none, readOk := false, writeOk := false } } rfl
  refine ⟨⟨h.1.1, h.1.2.1⟩, h.2.1, ?_⟩
  have h3 := h.2.2.2
  simpa using h3
